import Mathlib

/-
  Shallow embedding of nr-labs-chart-refresh-updater.py.

  Python values that the script manipulates (decoded JSON trees plus the
  Python singletons None/False that the helper functions return) are
  modelled by the inductive type PyVal. Python dictionaries are modelled
  as insertion-ordered association lists; assignment to an existing key
  keeps its position (as CPython dicts do), assignment to a fresh key
  appends, and deletion removes the key.
-/

inductive PyVal where
  | none
  | bool (b : Bool)
  | int (n : Int)
  | str (s : String)
  | list (xs : List PyVal)
  | dict (kvs : List (String × PyVal))

abbrev PyDict := List (String × PyVal)

mutual

/-- Structural (deep) equality on modelled Python values, as Python == on
the JSON-like fragment the script works with. -/
def pyValBeq : PyVal → PyVal → Bool
  | .none, .none => true
  | .bool a, .bool b => a == b
  | .int a, .int b => a == b
  | .str a, .str b => a == b
  | .list xs, .list ys => pyValBeqList xs ys
  | .dict xs, .dict ys => pyValBeqDict xs ys
  | _, _ => false

def pyValBeqList : List PyVal → List PyVal → Bool
  | [], [] => true
  | x :: xs, y :: ys => pyValBeq x y && pyValBeqList xs ys
  | _, _ => false

def pyValBeqDict : List (String × PyVal) → List (String × PyVal) → Bool
  | [], [] => true
  | (k1, v1) :: xs, (k2, v2) :: ys =>
      k1 == k2 && pyValBeq v1 v2 && pyValBeqDict xs ys
  | _, _ => false

end

/-- Python truthiness (`bool(x)`) for the modelled values: None, False, 0,
the empty string, the empty list and the empty dict are falsy. -/
def pyTruthy : PyVal → Bool
  | .none => false
  | .bool b => b
  | .int n => !(n == 0)
  | .str s => !(s == "")
  | .list xs => !xs.isEmpty
  | .dict kvs => !kvs.isEmpty

/-- Python equality test `x == False`: True exactly for False itself and
for the number 0 (bool is an int subtype in Python). -/
def pyEqFalse : PyVal → Bool
  | .bool b => !b
  | .int n => n == 0
  | _ => false

/-- Association-list lookup of the first binding of a key, modelling
`key in d` / `d[key]` on a Python dict (which never has duplicate keys). -/
def pyDictGet? (kvs : PyDict) (k : String) : Option PyVal :=
  match kvs with
  | [] => Option.none
  | (k1, v) :: rest => if k1 == k then some v else pyDictGet? rest k

/-- `d.get(key)`: the stored value, or None when the key is absent. -/
def pyDictGet (kvs : PyDict) (k : String) : PyVal :=
  (pyDictGet? kvs k).getD .none

/-- `d[key] = v`: replace the first binding in place, or append a new one,
matching CPython insertion-order semantics. -/
def pyDictSet (kvs : PyDict) (k : String) (v : PyVal) : PyDict :=
  match kvs with
  | [] => [(k, v)]
  | (k1, v1) :: rest =>
      if k1 == k then (k, v) :: rest else (k1, v1) :: pyDictSet rest k v

/-- `del d[key]` (guarded by `key in d` in the source, so deleting an
absent key is a no-op here). -/
def pyDictDel (kvs : PyDict) (k : String) : PyDict :=
  kvs.filter (fun kv => !(kv.1 == k))

/-
  _get_nested_helper(val, arr, index) from the source, with the suffix
  arr[index:] passed as the list argument:

    if index == len(arr): return False
    elif type(val) == dict:
        key = arr[index]
        if index == len(arr) - 1:
            return val[key] if key in val else None
        return _get_nested_helper(val[key], arr, index + 1) if key in val else None
    return False
-/
def get_nested_helper (val : PyVal) (arr : List String) : PyVal :=
  match arr with
  | [] => .bool false
  | key :: rest =>
      match val with
      | .dict kvs =>
          match rest with
          | [] =>
              match pyDictGet? kvs key with
              | some v => v
              | Option.none => .none
          | _ =>
              match pyDictGet? kvs key with
              | some v => get_nested_helper v rest
              | Option.none => .none
      | _ => .bool false

/-- str.split(".") on the character list: splitting the empty string gives
one empty segment, and consecutive dots give empty segments, exactly as in
Python. -/
def splitCharsOnDot : List Char → List (List Char)
  | [] => [[]]
  | c :: rest =>
      let segs := splitCharsOnDot rest
      if c == Char.ofNat 46 then [] :: segs
      else
        match segs with
        | s :: ss => (c :: s) :: ss
        | [] => [[c]]

/-- path.split(".") from the source (the separator is always the dot). -/
def pySplitDot (s : String) : List String :=
  (splitCharsOnDot s.toList).map (fun cs => String.mk cs)

/-- get_nested(d, path) = _get_nested_helper(d, path.split(".")). -/
def get_nested (d : PyVal) (path : String) : PyVal :=
  get_nested_helper d (pySplitDot path)

example : get_nested (.dict []) "a.b" = .none := rfl
example : get_nested (.dict [("a", .dict [("b", .none)])]) "a.b" = .none := rfl
example : get_nested (.dict [("a", .dict [("b", .int 1)])]) "a.b" = .int 1 := rfl
example : get_nested (.dict [("a", .int 1)]) "a.b" = .bool false := rfl

/-
  The exception classes of the script. GraphQLApiError is what the spec
  calls ProtocolError, DashboardNotFoundError is NotFoundError and
  DashboardValidationError is ValidationError. The status and reason
  fields of GraphQLApiError are elided; only the message matters to the
  claims. typeError and keyError stand for the built-in Python exceptions
  that would escape on inputs outside the shapes the script expects — and
  in particular for the TypeError raised by the one-argument
  GraphQLApiError constructions (the constructor requires message, status
  and reason with no defaults) at the pagination-cursor raise site and at
  all four raise sites of get_dashboard and update_dashboard, none of
  which therefore ever produces a catchable GraphQLApiError.
-/
inductive PyErr where
  | graphQLApi (message : String)
  | dashboardNotFound (message : String)
  | dashboardValidation (message : String)
  | typeError
  | keyError
deriving DecidableEq

/-- The message fields of a GraphQL errors array: error.get("message") for
each entry, defined only when every entry is a mapping with a string
message (otherwise the join in the source raises a built-in error). -/
def errorMessages : List PyVal → Option (List String)
  | [] => some []
  | .dict kvs :: rest =>
      match pyDictGet? kvs "message" with
      | some (.str s) =>
          match errorMessages rest with
          | some ms => some (s :: ms)
          | Option.none => Option.none
      | _ => Option.none
  | _ :: _ => Option.none

/-
  post_graphql from the source, restricted to its response handling: the
  transport inputs are the HTTP status, the reason string and the decoded
  JSON body. The source raises GraphQLApiError on a non-200 status, then
  on a present top-level errors key joins the message fields with a comma
  and raises GraphQLApiError, and otherwise returns response_json[data].
-/
def post_graphql_handle (status : Int) (reason : String) (body : PyVal) :
    Except PyErr PyVal :=
  if !(status == 200) then
    .error (.graphQLApi
      ("GraphQL request failed with status: " ++ toString status ++
        ", reason: " ++ reason))
  else
    match body with
    | .dict kvs =>
        match pyDictGet? kvs "errors" with
        | some (.list es) =>
            match errorMessages es with
            | some ms =>
                .error (.graphQLApi
                  ("GraphQL post error: " ++ String.intercalate "," ms))
            | Option.none => .error .typeError
        | some _ => .error .typeError
        | Option.none =>
            match pyDictGet? kvs "data" with
            | some d => .ok d
            | Option.none => .error .keyError
    | _ => .error .typeError

/-
  query_graphql from the source: the loop body posts one page, appends the
  payload, and when a cursor path was supplied extracts the next cursor
  from the payload with get_nested, failing when the extraction returns
  the False sentinel and stopping when the cursor is falsy. On the False
  sentinel the source attempts raise GraphQLApiError(message) with one
  argument, but the constructor requires message, status and reason with
  no defaults, so the construction itself raises an uncaught TypeError —
  a fatal built-in error, not a catchable GraphQLApiError. The remote
  server is modelled as the finite stream of successive successful
  post_graphql payloads; an empty stream stands for a server only queried
  as often as the stream is long. A None cursor path, and also the falsy
  empty-string path, disables pagination, so only the first payload is
  consumed.
-/
def query_graphql (next_cursor_path : Option String) (pages : List PyVal) :
    Except PyErr (List PyVal) :=
  match pages with
  | [] => .ok []
  | p :: rest =>
      match next_cursor_path with
      | Option.none => .ok [p]
      | some pth =>
          if pth == "" then .ok [p]
          else
            let next_cursor := get_nested p pth
            if pyEqFalse next_cursor then .error .typeError
            else if pyTruthy next_cursor then
              match query_graphql (some pth) rest with
              | .ok tail => .ok (p :: tail)
              | .error e => .error e
            else .ok [p]

/-
  get_dashboard from the source, restricted to what it does with the page
  list returned by query_graphql: a page count other than one takes the
  unexpected-number-of-results branch, then the dashboard is
  get_nested(results[0], "actor.entity") and anything that is not a dict
  (including the None of a truly absent entity) takes the
  missing-or-invalid branch. Both branches attempt
  raise GraphQLApiError(message) with one argument, but the constructor
  requires message, status and reason with no defaults, so each
  construction itself raises an uncaught TypeError — a fatal built-in
  error, not a catchable GraphQLApiError. The source never raises
  DashboardNotFoundError anywhere.
-/
def get_dashboard_check (guid : String) (results : List PyVal) :
    Except PyErr PyVal :=
  if results.length != 1 then .error .typeError
  else
    let dashboard := get_nested (results.headD .none) "actor.entity"
    match dashboard with
    | .dict kvs => .ok (.dict kvs)
    | _ => .error .typeError

/-
  update_dashboard from the source, restricted to what it does with the
  page list returned by query_graphql. Note that the source extracts the
  update errors with get_nested(results, ...) where results is the LIST of
  pages, not the single payload results[0]: get_nested on a non-dict
  returns the False sentinel, which is falsy, so the errors branch can
  never fire. Both raise branches attempt raise GraphQLApiError(message)
  with one argument, but the constructor requires message, status and
  reason with no defaults, so each construction itself raises an uncaught
  TypeError — a fatal built-in error, not a catchable GraphQLApiError (in
  the truthy-errors branch the description join would likewise only raise
  built-in errors on entries without string descriptions).
-/
def update_dashboard_check (guid : String) (results : List PyVal) :
    Except PyErr Unit :=
  if results.length != 1 then .error .typeError
  else
    let errors := get_nested (.list results) "dashboardUpdate.errors"
    if pyTruthy errors then
      match errors with
      | .list es => if 0 < es.length then .error .typeError else .ok ()
      | _ => .error .typeError
    else .ok ()

/-- The guid collection loop of transform_linked_entities: fail fast on an
entry that is not a mapping, collect entity["guid"] for each entry that
has the key, in order. -/
def collectGuids : List PyVal → Except PyErr (List PyVal)
  | [] => .ok []
  | .dict kvs :: rest =>
      match collectGuids rest with
      | .ok tail =>
          match pyDictGet? kvs "guid" with
          | some g => .ok (g :: tail)
          | Option.none => .ok tail
      | .error e => .error e
  | _ :: _ =>
      .error (.dashboardValidation "invalid linked entity element found")

/-
  transform_linked_entities from the source, on one widget. The guid and
  id parameters used only in log and error message formatting are elided.
  Mutation of the widget dict is modelled by returning the new dict. The
  source raises before reaching the final del on a non-list linkedEntities
  or a non-dict entry, so on the error paths the widget is unchanged; on
  the None branch (key absent, or present with value None) only the
  trailing guarded del runs.
-/
def transform_linked_entities (widget : PyDict) : Except PyErr PyDict :=
  let linkedEntities := pyDictGet widget "linkedEntities"
  match linkedEntities with
  | .none => .ok (pyDictDel widget "linkedEntities")
  | .list es =>
      match collectGuids es with
      | .ok guids =>
          .ok (pyDictDel
            (pyDictSet widget "linkedEntityGuids" (.list guids))
            "linkedEntities")
      | .error e => .error e
  | _ =>
      .error (.dashboardValidation "invalid linkedEntities element found")

/-
  update_refresh_rate from the source, on one widget. When rawConfiguration
  is absent (or stored as None) the source binds the local name
  rawConfiguration to a fresh empty dict and then stores the new
  refreshRate mapping into that fresh dict only; the widget itself is
  never written, so the fresh dict is dropped and the widget is returned
  unchanged. When rawConfiguration is a dict, the source mutates it (and
  through the alias the widget) in place.
-/
def update_refresh_rate (widget : PyDict) (refresh_rate : Int) :
    Except PyErr PyDict :=
  let rawConfiguration := pyDictGet widget "rawConfiguration"
  match rawConfiguration with
  | .none =>
      let freshLocal : PyDict :=
        pyDictSet [] "refreshRate" (.dict [("frequency", .int refresh_rate)])
      let _ := freshLocal
      .ok widget
  | .dict rc =>
      match pyDictGet? rc "refreshRate" with
      | some (.dict sub) =>
          .ok (pyDictSet widget "rawConfiguration"
            (.dict (pyDictSet rc "refreshRate"
              (.dict (pyDictSet sub "frequency" (.int refresh_rate))))))
      | some _ =>
          .error (.dashboardValidation "invalid refreshRate element found")
      | Option.none =>
          .ok (pyDictSet widget "rawConfiguration"
            (.dict (pyDictSet rc "refreshRate"
              (.dict [("frequency", .int refresh_rate)]))))
  | _ =>
      .error (.dashboardValidation "invalid rawConfiguration element found")

/-- The inner widget loop of transform_widgets: each widget must be a
mapping, and the transformer is applied to each in order, fail fast. -/
def transformWidgetList (t : PyDict → Except PyErr PyDict) :
    List PyVal → Except PyErr (List PyVal)
  | [] => .ok []
  | .dict w :: rest =>
      match t w with
      | .ok w1 =>
          match transformWidgetList t rest with
          | .ok rest1 => .ok (.dict w1 :: rest1)
          | .error e => .error e
      | .error e => .error e
  | _ :: _ =>
      .error (.dashboardValidation "invalid widget definition found")

/-- The page loop of transform_widgets: each page must be a mapping; a
falsy widgets entry skips the page, a truthy non-list one is invalid. -/
def transformPageList (t : PyDict → Except PyErr PyDict) :
    List PyVal → Except PyErr (List PyVal)
  | [] => .ok []
  | .dict page :: rest =>
      let widgets := pyDictGet page "widgets"
      if !pyTruthy widgets then
        match transformPageList t rest with
        | .ok rest1 => .ok (.dict page :: rest1)
        | .error e => .error e
      else
        match widgets with
        | .list ws =>
            match transformWidgetList t ws with
            | .ok ws1 =>
                match transformPageList t rest with
                | .ok rest1 =>
                    .ok (.dict (pyDictSet page "widgets" (.list ws1)) :: rest1)
                | .error e => .error e
            | .error e => .error e
        | _ => .error (.dashboardValidation "invalid widgets element found")
  | _ :: _ =>
      .error (.dashboardValidation "invalid page definition found")

/-
  transform_widgets from the source: a falsy pages entry (absent, None or
  empty) is a no-op, a truthy non-list one is invalid, and otherwise every
  page and widget is visited in order with the given transformer. The
  guid and id parameters used only in log and error messages are elided,
  and in-place mutation is modelled by returning the new dashboard.
-/
def transform_widgets (dashboard : PyDict)
    (t : PyDict → Except PyErr PyDict) : Except PyErr PyDict :=
  let pages := pyDictGet dashboard "pages"
  if !pyTruthy pages then .ok dashboard
  else
    match pages with
    | .list ps =>
        match transformPageList t ps with
        | .ok ps1 => .ok (pyDictSet dashboard "pages" (.list ps1))
        | .error e => .error e
    | _ => .error (.dashboardValidation "invalid pages element found")

/-- fixup_linked_entities from the source. -/
def fixup_linked_entities (dashboard : PyDict) : Except PyErr PyDict :=
  transform_widgets dashboard transform_linked_entities

/-- update_refresh_rates from the source. -/
def update_refresh_rates (dashboard : PyDict) (refresh_rate : Int) :
    Except PyErr PyDict :=
  transform_widgets dashboard (fun w => update_refresh_rate w refresh_rate)

/-- The externally visible effects of process_dashboard_update: the
snapshot handed to backup_dashboard and the dashboard handed to
update_dashboard, in call order. -/
inductive PipelineEvent where
  | backup (snapshot : PyDict)
  | update (dashboard : PyDict)

/-
  process_dashboard_update from the source, with the already fetched
  dashboard as input and the calls to the backup sink and to the update
  mutation recorded as events in call order: first fixup_linked_entities
  mutates the dashboard, then (when a backup directory is configured)
  backup_dashboard receives the current tree, then update_refresh_rates
  mutates it again, then update_dashboard receives the final tree.
-/
def process_dashboard_update (fetched : PyDict) (refresh_rate : Int)
    (backupEnabled : Bool) : Except PyErr (List PipelineEvent) :=
  match fixup_linked_entities fetched with
  | .error e => .error e
  | .ok d1 =>
      let events := if backupEnabled then [PipelineEvent.backup d1] else []
      match update_refresh_rates d1 refresh_rate with
      | .error e => .error e
      | .ok d2 => .ok (events ++ [PipelineEvent.update d2])

/-- The outcome of one process_dashboard_update call as seen by the batch
orchestrator: a normal return, one of the three caught exception classes,
or any other exception. -/
inductive UpdateOutcome where
  | ok
  | notFound
  | invalid
  | apiError
  | fatal
deriving DecidableEq

/-- The entry guard of the orchestrator loop: an entry that is not a
mapping, or whose guid or refreshRate is missing or falsy, is skipped with
no status recorded; otherwise the guid and rate are returned. -/
def valid_dashboard_config (e : PyVal) : Option (PyVal × PyVal) :=
  match e with
  | .dict kvs =>
      let guid := pyDictGet kvs "guid"
      let refresh_rate := pyDictGet kvs "refreshRate"
      if pyTruthy guid && pyTruthy refresh_rate then some (guid, refresh_rate)
      else Option.none
  | _ => Option.none

/-- results[guid] = status on the status dict of the orchestrator, with
Python deep equality on the keys. -/
def resultsSet (acc : List (PyVal × String)) (k : PyVal) (v : String) :
    List (PyVal × String) :=
  match acc with
  | [] => [(k, v)]
  | (k1, v1) :: rest =>
      if pyValBeq k1 k then (k, v) :: rest
      else (k1, v1) :: resultsSet rest k v

/-
  process_dashboard_updates from the source, one loop step at a time. The
  per-dashboard pipeline is abstracted by an oracle giving the outcome of
  process_dashboard_update for a guid and rate. The source catches exactly
  DashboardNotFoundError, DashboardValidationError and GraphQLApiError,
  records the matching status string and continues; any other exception
  propagates out of the loop, losing the local results dict — modelled by
  an error result carrying the statuses accumulated so far, so that the
  point of termination is observable.
-/
def process_dashboard_updates_loop (oracle : PyVal → PyVal → UpdateOutcome)
    (entries : List PyVal) (acc : List (PyVal × String)) :
    Except (List (PyVal × String)) (List (PyVal × String)) :=
  match entries with
  | [] => .ok acc
  | e :: rest =>
      match valid_dashboard_config e with
      | Option.none => process_dashboard_updates_loop oracle rest acc
      | some (guid, rate) =>
          match oracle guid rate with
          | .ok =>
              process_dashboard_updates_loop oracle rest
                (resultsSet acc guid "OK")
          | .notFound =>
              process_dashboard_updates_loop oracle rest
                (resultsSet acc guid "NOT FOUND")
          | .invalid =>
              process_dashboard_updates_loop oracle rest
                (resultsSet acc guid "INVALID")
          | .apiError =>
              process_dashboard_updates_loop oracle rest
                (resultsSet acc guid "API ERROR")
          | .fatal => .error acc

/-- The guid contributed by one linkedEntities entry: the guid binding of a
mapping entry when it has one. Used to state what collectGuids computes. -/
def extractGuid : PyVal → Option PyVal
  | .dict kvs => pyDictGet? kvs "guid"
  | _ => Option.none

/-- A demonstration outcome oracle for the batch scenario: processing the
dashboard with guid g2 raises DashboardNotFoundError and every other
dashboard processes normally. -/
def oracleDemo : PyVal → PyVal → UpdateOutcome := fun guid _ =>
  if pyValBeq guid (.str "g2") then .notFound else .ok

/-
  Helper lemmas about the dict model, shared by the claim theorems below.
-/

theorem pyDictGet?_set_self (d : PyDict) (k : String) (v : PyVal) :
    pyDictGet? (pyDictSet d k v) k = some v := by
  induction d with
  | nil => simp [pyDictSet, pyDictGet?]
  | cons kv rest ih =>
      obtain ⟨k1, v1⟩ := kv
      by_cases h : k1 = k
      · simp [pyDictSet, pyDictGet?, h]
      · simp [pyDictSet, pyDictGet?, h, ih]

theorem pyDictGet?_set_ne (d : PyDict) (kL kS : String) (v : PyVal)
    (h : kL ≠ kS) : pyDictGet? (pyDictSet d kS v) kL = pyDictGet? d kL := by
  have h2 : kS ≠ kL := Ne.symm h
  induction d with
  | nil => simp [pyDictSet, pyDictGet?, h2]
  | cons kv rest ih =>
      obtain ⟨k1, v1⟩ := kv
      by_cases h1 : k1 = kS
      · subst h1
        simp [pyDictSet, pyDictGet?, h2]
      · by_cases h3 : k1 = kL
        · subst h3
          simp [pyDictSet, pyDictGet?, h1]
        · simp [pyDictSet, pyDictGet?, h1, h3, ih]

theorem pyDictGet?_del_self (d : PyDict) (k : String) :
    pyDictGet? (pyDictDel d k) k = Option.none := by
  induction d with
  | nil => simp [pyDictDel, pyDictGet?]
  | cons kv rest ih =>
      obtain ⟨k1, v1⟩ := kv
      by_cases h : k1 = k
      · simpa [pyDictDel, pyDictGet?, h] using ih
      · simpa [pyDictDel, pyDictGet?, h] using ih

theorem pyDictGet?_del_ne (d : PyDict) (kL kD : String) (h : kL ≠ kD) :
    pyDictGet? (pyDictDel d kD) kL = pyDictGet? d kL := by
  have h2 : kD ≠ kL := Ne.symm h
  induction d with
  | nil => simp [pyDictDel, pyDictGet?]
  | cons kv rest ih =>
      obtain ⟨k1, v1⟩ := kv
      by_cases h1 : k1 = kD
      · subst h1
        simpa [pyDictDel, pyDictGet?, h2] using ih
      · by_cases h3 : k1 = kL
        · subst h3
          simp [pyDictDel, pyDictGet?, h1]
        · simpa [pyDictDel, pyDictGet?, h1, h3] using ih

theorem collectGuids_of_dicts (es : List PyVal)
    (h : ∀ e ∈ es, ∃ kvs, e = PyVal.dict kvs) :
    collectGuids es = .ok (es.filterMap extractGuid) := by
  induction es with
  | nil => rfl
  | cons e rest ih =>
      obtain ⟨kvs, rfl⟩ := h e (by simp)
      have ih1 := ih (fun x hx => h x (by simp [hx]))
      cases hg : pyDictGet? kvs "guid" <;>
        simp [collectGuids, ih1, extractGuid, hg]

/-- C1. The claim says that after update_refresh_rate returns, the widget
has rawConfiguration.refreshRate.frequency equal to the configured rate
even when the widget had no rawConfiguration key. On a widget without the
key the source binds a fresh local dict, stores the new refreshRate
mapping into that local dict only, and returns with the widget unchanged:
here the widget with only an id keeps exactly its one binding and the
claimed path still resolves to None, not to the rate 30. -/
theorem update_refresh_rate_absent_rawConfiguration_unchanged :
    update_refresh_rate [("id", .int 7)] 30 = .ok [("id", .int 7)] ∧
    get_nested (.dict [("id", .int 7)])
      "rawConfiguration.refreshRate.frequency" = PyVal.none :=
  ⟨rfl, rfl⟩

/-- C2. The claim says update_dashboard fails with GraphQLApiError when
the single page payload carries a non-empty dashboardUpdate.errors list.
The source extracts the errors from the page LIST instead of from the
single payload, get_nested on a list returns the falsy False sentinel, and
the call therefore returns normally even though the payload itself holds a
non-empty errors list with a description. -/
theorem update_dashboard_check_ignores_update_errors :
    update_dashboard_check "g"
      [.dict [("dashboardUpdate", .dict [("errors",
        .list [.dict [("description", .str "boom")]])])]] = .ok () ∧
    get_nested
      (.dict [("dashboardUpdate", .dict [("errors",
        .list [.dict [("description", .str "boom")]])])])
      "dashboardUpdate.errors" =
        .list [.dict [("description", .str "boom")]] ∧
    get_nested
      (.list [.dict [("dashboardUpdate", .dict [("errors",
        .list [.dict [("description", .str "boom")]])])]])
      "dashboardUpdate.errors" = PyVal.bool false :=
  ⟨rfl, rfl, rfl⟩

/-- C3 counterexample. The claim says a path with a missing intermediate
key returns the distinguished NotFound sentinel, never conflatable with a
present null; in the source get over the empty tree returns None, the very
value the path a.b yields when b is present and null, so the two cases are
conflated. -/
theorem get_nested_missing_key_conflated_with_null :
    get_nested (.dict []) "a.b" = PyVal.none ∧
    get_nested (.dict [("a", .dict [("b", .none)])]) "a.b" = PyVal.none ∧
    get_nested (.dict []) "a.b" =
      get_nested (.dict [("a", .dict [("b", .none)])]) "a.b" :=
  ⟨rfl, rfl, rfl⟩

/-- C3 (amended). The path accessor returns the value at the final segment
(possibly None) when every intermediate segment resolves through a
mapping; a missing key, intermediate or final, yields None, which is the
same value as a present null; only a value that is not a mapping at a
still-unconsumed segment yields the False NotFound sentinel. In
particular get over the empty tree at a.b is None, a.b over a maps-to
null tree is None, a.b over a maps-to 1 tree is 1, and a.b where a is 1
is the False sentinel. -/
theorem get_nested_three_way_semantics :
    (get_nested (.dict []) "a.b" = PyVal.none) ∧
    (get_nested (.dict [("a", .dict [("b", .none)])]) "a.b" = PyVal.none) ∧
    (get_nested (.dict [("a", .dict [("b", .int 1)])]) "a.b" = PyVal.int 1) ∧
    (get_nested (.dict [("a", .int 1)]) "a.b" = PyVal.bool false) ∧
    (∀ (kvs : PyDict) (key : String) (rest : List String),
      pyDictGet? kvs key = Option.none →
        get_nested_helper (.dict kvs) (key :: rest) = PyVal.none) ∧
    (∀ (val : PyVal) (key : String) (rest : List String),
      (∀ kvs, val ≠ PyVal.dict kvs) →
        get_nested_helper val (key :: rest) = PyVal.bool false) ∧
    (∀ (kvs : PyDict) (key : String) (v : PyVal),
      pyDictGet? kvs key = some v →
        get_nested_helper (.dict kvs) [key] = v) ∧
    (∀ (kvs : PyDict) (key : String) (v : PyVal) (seg : String)
        (rest : List String),
      pyDictGet? kvs key = some v →
        get_nested_helper (.dict kvs) (key :: seg :: rest) =
          get_nested_helper v (seg :: rest)) := by
  refine ⟨rfl, rfl, rfl, rfl, ?_, ?_, ?_, ?_⟩
  · intro kvs key rest h
    cases rest <;> simp [get_nested_helper, h]
  · intro val key rest h
    cases val <;> simp [get_nested_helper]
    exact absurd rfl (h _)
  · intro kvs key v h
    simp [get_nested_helper, h]
  · intro kvs key v seg rest h
    simp [get_nested_helper, h]

/-- C4. The claim says a well-formed fetch response whose actor.entity is
null surfaces DashboardNotFoundError so the orchestrator records NOT
FOUND. In the source the null entity falls into the same not-a-dict branch
as a malformed shape, and that branch does not even produce a catchable
GraphQLApiError: its one-argument GraphQLApiError construction is missing
the required status and reason arguments and itself raises TypeError,
which no layer catches, so the whole run terminates with no status
recorded; DashboardNotFoundError is defined and caught but never raised
anywhere in the script. -/
theorem get_dashboard_check_null_entity_fatal_type_error :
    get_dashboard_check "g" [.dict [("actor", .dict [("entity", .none)])]] =
      .error .typeError :=
  rfl

/-- C5 counterexample. The claim says the snapshot handed to the backup
sink is the dashboard exactly as fetched. For a fetched dashboard whose
one widget carries linkedEntities, fixup_linked_entities runs before the
backup call and rewrites the widget, so the recorded backup snapshot
differs from the fetched tree. -/
theorem process_dashboard_update_snapshot_not_as_fetched :
    process_dashboard_update
      [("pages", .list [.dict [("widgets", .list [.dict [("linkedEntities",
        .list [.dict [("guid", .str "A")]])]])]])] 30 true =
      .ok [PipelineEvent.backup
            [("pages", .list [.dict [("widgets", .list [.dict
              [("linkedEntityGuids", .list [.str "A"])]])]])],
           PipelineEvent.update
            [("pages", .list [.dict [("widgets", .list [.dict
              [("linkedEntityGuids", .list [.str "A"])]])]])]] ∧
    ([("pages", .list [.dict [("widgets", .list [.dict
        [("linkedEntityGuids", .list [.str "A"])]])]])] : PyDict) ≠
      [("pages", .list [.dict [("widgets", .list [.dict [("linkedEntities",
        .list [.dict [("guid", .str "A")]])]])]])] := by
  refine ⟨rfl, ?_⟩
  simp

/-- C5 (amended). For every dashboard processed with backups enabled, the
snapshot handed to the backup sink is the dashboard AFTER the
linked-entities fixup but before the refresh-rate transformation, and the
backup write occurs strictly before the update mutation is issued. -/
theorem process_dashboard_update_backup_order :
    ∀ (fetched d1 d2 : PyDict) (rate : Int),
      fixup_linked_entities fetched = .ok d1 →
      update_refresh_rates d1 rate = .ok d2 →
      process_dashboard_update fetched rate true =
        .ok [PipelineEvent.backup d1, PipelineEvent.update d2] := by
  intro fetched d1 d2 rate h1 h2
  simp [process_dashboard_update, h1, h2]

/-- C5 witness: the amended backup-order theorem applied to the concrete
dashboard of the counterexample. -/
theorem process_dashboard_update_backup_order_witness :
    fixup_linked_entities
      [("pages", .list [.dict [("widgets", .list [.dict [("linkedEntities",
        .list [.dict [("guid", .str "A")]])]])]])] =
      .ok [("pages", .list [.dict [("widgets", .list [.dict
            [("linkedEntityGuids", .list [.str "A"])]])]])] ∧
    update_refresh_rates
      [("pages", .list [.dict [("widgets", .list [.dict
        [("linkedEntityGuids", .list [.str "A"])]])]])] 30 =
      .ok [("pages", .list [.dict [("widgets", .list [.dict
            [("linkedEntityGuids", .list [.str "A"])]])]])] ∧
    process_dashboard_update
      [("pages", .list [.dict [("widgets", .list [.dict [("linkedEntities",
        .list [.dict [("guid", .str "A")]])]])]])] 30 true =
      .ok [PipelineEvent.backup
            [("pages", .list [.dict [("widgets", .list [.dict
              [("linkedEntityGuids", .list [.str "A"])]])]])],
           PipelineEvent.update
            [("pages", .list [.dict [("widgets", .list [.dict
              [("linkedEntityGuids", .list [.str "A"])]])]])]] :=
  ⟨rfl, rfl, process_dashboard_update_backup_order _ _ _ 30 rfl rfl⟩

/-- C6. For every widget whose linkedEntities value is a list of
mapping-valued entries, transform_linked_entities succeeds, sets
linkedEntityGuids to exactly the guid bindings of the entries that have
one, in entry order (entries without a guid are skipped), and removes the
linkedEntities key. -/
theorem transform_linked_entities_guid_collection :
    ∀ (widget : PyDict) (es : List PyVal),
      pyDictGet widget "linkedEntities" = .list es →
      (∀ e ∈ es, ∃ kvs, e = PyVal.dict kvs) →
      ∃ w1, transform_linked_entities widget = .ok w1 ∧
        pyDictGet? w1 "linkedEntityGuids" =
          some (.list (es.filterMap extractGuid)) ∧
        pyDictGet? w1 "linkedEntities" = Option.none := by
  intro widget es hle hdict
  have hc := collectGuids_of_dicts es hdict
  refine ⟨pyDictDel
    (pyDictSet widget "linkedEntityGuids" (.list (es.filterMap extractGuid)))
    "linkedEntities", ?_, ?_, ?_⟩
  · simp [transform_linked_entities, hle, hc]
  · rw [pyDictGet?_del_ne _ _ _ (by decide), pyDictGet?_set_self]
  · exact pyDictGet?_del_self _ _

/-- C6 witness: the guid-collection theorem applied to the widget of the
spec scenario, linkedEntities with one guid entry and one entry without a
guid, which yields the single guid A and no linkedEntities key. -/
theorem transform_linked_entities_guid_collection_witness :
    pyDictGet [("linkedEntities", .list [.dict [("guid", .str "A")],
        .dict [("foo", .str "x")]])] "linkedEntities" =
      .list [.dict [("guid", .str "A")], .dict [("foo", .str "x")]] ∧
    List.filterMap extractGuid
      [.dict [("guid", .str "A")], .dict [("foo", .str "x")]] =
      [.str "A"] ∧
    (∃ w1, transform_linked_entities
        [("linkedEntities", .list [.dict [("guid", .str "A")],
          .dict [("foo", .str "x")]])] = .ok w1 ∧
      pyDictGet? w1 "linkedEntityGuids" =
        some (.list (List.filterMap extractGuid
          [.dict [("guid", .str "A")], .dict [("foo", .str "x")]])) ∧
      pyDictGet? w1 "linkedEntities" = Option.none) :=
  ⟨rfl, rfl,
    transform_linked_entities_guid_collection _ _ rfl (by
      intro e he
      simp only [List.mem_cons] at he
      rcases he with rfl | rfl | he
      · exact ⟨_, rfl⟩
      · exact ⟨_, rfl⟩
      · exact absurd he (List.not_mem_nil e))⟩

/-- C7. For every response with transport status 200 whose decoded body
carries a top-level errors list, post_graphql never returns the data
payload, and whenever every entry is a mapping with a string message it
fails with GraphQLApiError whose message joins all the message fields with
commas. -/
theorem post_graphql_embedded_errors_fail :
    ∀ (reason : String) (kvs : PyDict) (es : List PyVal),
      pyDictGet? kvs "errors" = some (.list es) →
      (∀ d, post_graphql_handle 200 reason (.dict kvs) ≠ .ok d) ∧
      (∀ ms, errorMessages es = some ms →
        post_graphql_handle 200 reason (.dict kvs) =
          .error (.graphQLApi
            ("GraphQL post error: " ++ String.intercalate "," ms))) := by
  intro reason kvs es h
  constructor
  · intro d hd
    cases hm : errorMessages es <;>
      simp [post_graphql_handle, h, hm] at hd
  · intro ms hm
    simp [post_graphql_handle, h, hm]

/-- C7 witness: the embedded-errors theorem applied to the spec scenario,
status 200 with body errors a one-entry list with message x. -/
theorem post_graphql_embedded_errors_fail_witness :
    pyDictGet? [("errors", .list [.dict [("message", .str "x")]])] "errors" =
      some (.list [.dict [("message", .str "x")]]) ∧
    ((∀ d, post_graphql_handle 200 "OK"
        (.dict [("errors", .list [.dict [("message", .str "x")]])]) ≠
          .ok d) ∧
     (∀ ms, errorMessages [.dict [("message", .str "x")]] = some ms →
        post_graphql_handle 200 "OK"
          (.dict [("errors", .list [.dict [("message", .str "x")]])]) =
            .error (.graphQLApi
              ("GraphQL post error: " ++ String.intercalate "," ms)))) :=
  ⟨rfl, post_graphql_embedded_errors_fail "OK" _ _ rfl⟩

/-- C8 counterexample. The claim promises all pages in order whenever each
non-final page has a non-null extracted cursor and the final page a
null/absent one. A two-page server whose first cursor is the empty string
satisfies that hypothesis (the empty string is not null), yet the loop
stops on the falsy empty string after page one and returns a single page. -/
theorem query_graphql_empty_string_cursor_stops_early :
    get_nested (.dict [("next", .str "")]) "next" = PyVal.str "" ∧
    get_nested (.dict [("next", .none)]) "next" = PyVal.none ∧
    query_graphql (some "next")
      [.dict [("next", .str "")], .dict [("next", .none)]] =
      .ok [.dict [("next", .str "")]] ∧
    query_graphql (some "next")
      [.dict [("next", .str "")], .dict [("next", .none)]] ≠
      .ok [.dict [("next", .str "")], .dict [("next", .none)]] := by
  refine ⟨rfl, rfl, rfl, ?_⟩
  have h3 : query_graphql (some "next")
      [.dict [("next", .str "")], .dict [("next", .none)]] =
      .ok [.dict [("next", .str "")]] := rfl
  rw [h3]
  simp

/-- C8 (amended). For every non-empty cursor path against a server whose
non-final pages each yield a NON-EMPTY STRING cursor at the path and whose
final page yields a null cursor, the pagination loop terminates after the
final page and returns all page payloads in request order; and if the
pages before some page all yield non-empty string cursors and that page
yields the False NotFound sentinel at the path, the call fails — but not
with a catchable GraphQLApiError: the one-argument GraphQLApiError
construction at that raise site is missing its required status and reason
arguments and itself raises an uncaught fatal TypeError. -/
theorem query_graphql_pagination_semantics :
    (∀ (pth : String), pth ≠ "" →
      ∀ (ps : List PyVal) (lastPage : PyVal),
        (∀ p ∈ ps, ∃ s, s ≠ "" ∧ get_nested p pth = PyVal.str s) →
        get_nested lastPage pth = PyVal.none →
        query_graphql (some pth) (ps ++ [lastPage]) =
          .ok (ps ++ [lastPage])) ∧
    (∀ (pth : String), pth ≠ "" →
      ∀ (pre : List PyVal) (page : PyVal) (rest : List PyVal),
        (∀ p ∈ pre, ∃ s, s ≠ "" ∧ get_nested p pth = PyVal.str s) →
        get_nested page pth = PyVal.bool false →
        query_graphql (some pth) (pre ++ page :: rest) =
          .error .typeError) := by
  constructor
  · intro pth hp ps lastPage
    have hpb : (pth == "") = false := beq_eq_false_iff_ne.mpr hp
    induction ps with
    | nil =>
        intro _ hlast
        simp [query_graphql, hpb, hlast, pyEqFalse, pyTruthy]
    | cons p ps ih =>
        intro hcur hlast
        obtain ⟨s, hs, hcs⟩ := hcur p (List.mem_cons_self p ps)
        have hsb : (s == "") = false := beq_eq_false_iff_ne.mpr hs
        have ih1 := ih (fun q hq => hcur q (List.mem_cons_of_mem p hq)) hlast
        simp [query_graphql, hpb, hcs, pyEqFalse, pyTruthy, hsb, ih1]
  · intro pth hp pre page rest
    have hpb : (pth == "") = false := beq_eq_false_iff_ne.mpr hp
    induction pre with
    | nil =>
        intro _ hnf
        simp [query_graphql, hpb, hnf, pyEqFalse]
    | cons p pre ih =>
        intro hcur hnf
        obtain ⟨s, hs, hcs⟩ := hcur p (List.mem_cons_self p pre)
        have hsb : (s == "") = false := beq_eq_false_iff_ne.mpr hs
        have ih1 := ih (fun q hq => hcur q (List.mem_cons_of_mem p hq)) hnf
        simp [query_graphql, hpb, hcs, pyEqFalse, pyTruthy, hsb, ih1]

/-- C9. One step of the batch orchestrator loop at a valid configuration
entry, from any reached accumulator state: when processing the entry
raises DashboardNotFoundError, DashboardValidationError or
GraphQLApiError, the matching terminal status (NOT FOUND, INVALID, API
ERROR) is recorded for its guid and the loop continues with exactly the
remaining entries in input order (likewise OK on a normal return); when it
raises any other error kind, the loop terminates at once with the
remaining entries unprocessed. -/
theorem process_dashboard_updates_error_boundary :
    ∀ (oracle : PyVal → PyVal → UpdateOutcome) (e : PyVal)
      (rest : List PyVal) (acc : List (PyVal × String)) (guid rate : PyVal),
      valid_dashboard_config e = some (guid, rate) →
      ((oracle guid rate = .notFound →
          process_dashboard_updates_loop oracle (e :: rest) acc =
            process_dashboard_updates_loop oracle rest
              (resultsSet acc guid "NOT FOUND")) ∧
       (oracle guid rate = .invalid →
          process_dashboard_updates_loop oracle (e :: rest) acc =
            process_dashboard_updates_loop oracle rest
              (resultsSet acc guid "INVALID")) ∧
       (oracle guid rate = .apiError →
          process_dashboard_updates_loop oracle (e :: rest) acc =
            process_dashboard_updates_loop oracle rest
              (resultsSet acc guid "API ERROR")) ∧
       (oracle guid rate = .ok →
          process_dashboard_updates_loop oracle (e :: rest) acc =
            process_dashboard_updates_loop oracle rest
              (resultsSet acc guid "OK")) ∧
       (oracle guid rate = .fatal →
          process_dashboard_updates_loop oracle (e :: rest) acc =
            .error acc)) := by
  intro oracle e rest acc guid rate hv
  refine ⟨?_, ?_, ?_, ?_, ?_⟩ <;> intro ho <;>
    simp [process_dashboard_updates_loop, hv, ho]

/-- C9 witness: the spec scenario of three configured dashboards where the
second one raises DashboardNotFoundError: the full run yields the status
map OK, NOT FOUND, OK, and the step at the second entry is the one the
error-boundary theorem describes. -/
theorem process_dashboard_updates_error_boundary_witness :
    process_dashboard_updates_loop oracleDemo
      [.dict [("guid", .str "g1"), ("refreshRate", .int 30)],
       .dict [("guid", .str "g2"), ("refreshRate", .int 30)],
       .dict [("guid", .str "g3"), ("refreshRate", .int 30)]] [] =
      .ok [(.str "g1", "OK"), (.str "g2", "NOT FOUND"),
           (.str "g3", "OK")] ∧
    valid_dashboard_config
      (.dict [("guid", .str "g2"), ("refreshRate", .int 30)]) =
      some (.str "g2", .int 30) ∧
    process_dashboard_updates_loop oracleDemo
      [.dict [("guid", .str "g2"), ("refreshRate", .int 30)],
       .dict [("guid", .str "g3"), ("refreshRate", .int 30)]]
      [(.str "g1", "OK")] =
      process_dashboard_updates_loop oracleDemo
        [.dict [("guid", .str "g3"), ("refreshRate", .int 30)]]
        (resultsSet [(.str "g1", "OK")] (.str "g2") "NOT FOUND") :=
  ⟨rfl, rfl,
    (process_dashboard_updates_error_boundary oracleDemo
      (.dict [("guid", .str "g2"), ("refreshRate", .int 30)])
      [.dict [("guid", .str "g3"), ("refreshRate", .int 30)]]
      [(.str "g1", "OK")] (.str "g2") (.int 30) rfl).1 rfl⟩

/-- C10. A query_graphql call without a pagination cursor path performs
exactly one POST (only the first server payload is consumed, whatever the
server would answer later) and returns the one-element payload list; on
any list it returns, the page-count guard results.length != 1 that both
get_dashboard_check and update_dashboard_check branch on evaluates to
false, so their unexpected-number-of-results branches are unreachable. -/
theorem query_graphql_unpaged_single_page :
    ∀ (p : PyVal) (rest : List PyVal),
      query_graphql Option.none (p :: rest) = .ok [p] ∧
      (∀ rs, query_graphql Option.none (p :: rest) = .ok rs →
        (rs.length != 1) = false) := by
  intro p rest
  constructor
  · rfl
  · intro rs h
    have h1 : query_graphql Option.none (p :: rest) = .ok [p] := rfl
    rw [h1] at h
    injection h with h2
    rw [← h2]
    rfl
